import Mathlib

/-!
Shallow embedding of the resilient retry engine and the polling orchestrator
of the vfs-global-tracker repository (backend/core/retry_engine.py and
backend/main_controller.py).

Modelling conventions:
* Python floats are modelled as rationals (ℚ); wall-clock time is a rational
  number of seconds threaded explicitly through the state (`datetime.now()`
  reads the current model time, `asyncio.sleep(d)` advances it by `d`;
  everything else is instantaneous).
* `random.uniform` draws are supplied as explicit oracle parameters.
* Exceptions are modelled with `Except String`: an operation behaviour is a
  function from the (1-based) attempt number, the current time and an
  external-world state to a result or an error string.
* External collaborators (the Telegram notifier) are modelled as events
  recorded in a trace; whether a notification send reports success is an
  oracle boolean.
* The concurrent per-target checks of one orchestrator cycle are modelled as
  a deterministic sequential composition of the per-target tasks.
-/

/-- Severity tiers, mirroring `ErrorSeverity` in retry_engine.py. -/
inductive ErrorSeverity where
  | LOW
  | MEDIUM
  | HIGH
  | CRITICAL
  deriving DecidableEq, Repr

/-- Retry strategies, mirroring `RetryStrategy` in retry_engine.py. -/
inductive RetryStrategy where
  | LINEAR
  | EXPONENTIAL
  | JITTERED
  | ADAPTIVE
  deriving DecidableEq, Repr

/-- Character-list equality test used by the substring matcher. -/
def chListMatchAt : List Char → List Char → Bool
  | _, [] => true
  | [], _ :: _ => false
  | h :: hs, p :: ps => h == p && chListMatchAt hs ps

/-- `chListHasSub hay pat` is Python's `pat in hay` on character lists. -/
def chListHasSub : List Char → List Char → Bool
  | [], pat => chListMatchAt [] pat
  | h :: hs, pat => chListMatchAt (h :: hs) pat || chListHasSub hs pat

/-- Python's `pat in hay` substring containment on strings. -/
def strHasSub (hay pat : String) : Bool :=
  chListHasSub hay.data pat.data

/-- Python's `str.lower()` (character-wise lowercasing; the error texts and
patterns concerned are ASCII). -/
def strLower (s : String) : String :=
  ⟨s.data.map Char.toLower⟩

/-- The ordered error-pattern table of `SilentRetryEngine`, in declaration
order (Python dicts preserve insertion order). -/
def error_patterns : List (String × ErrorSeverity) :=
  [ ("timeout", ErrorSeverity.LOW),
    ("connection", ErrorSeverity.LOW),
    ("network", ErrorSeverity.LOW),
    ("dns", ErrorSeverity.LOW),
    ("element not found", ErrorSeverity.MEDIUM),
    ("page load", ErrorSeverity.MEDIUM),
    ("stale element", ErrorSeverity.MEDIUM),
    ("javascript error", ErrorSeverity.MEDIUM),
    ("login failed", ErrorSeverity.HIGH),
    ("session expired", ErrorSeverity.HIGH),
    ("authentication", ErrorSeverity.HIGH),
    ("unauthorized", ErrorSeverity.HIGH),
    ("blocked", ErrorSeverity.CRITICAL),
    ("banned", ErrorSeverity.CRITICAL),
    ("cloudflare", ErrorSeverity.CRITICAL),
    ("too many requests", ErrorSeverity.CRITICAL),
    ("captcha", ErrorSeverity.CRITICAL) ]

/-- `SilentRetryEngine._classify_error`: lowercase the message, return the
severity of the first pattern contained in it, `MEDIUM` if none matches. -/
def _classify_error (error_message : String) : ErrorSeverity :=
  match error_patterns.find? (fun p => strHasSub (strLower error_message) p.1) with
  | some p => p.2
  | none => ErrorSeverity.MEDIUM

/-- The severity multiplier table in `SilentRetryEngine._calculate_delay`. -/
def severity_multipliers : ErrorSeverity → ℚ
  | ErrorSeverity.LOW => 1 / 2
  | ErrorSeverity.MEDIUM => 1
  | ErrorSeverity.HIGH => 2
  | ErrorSeverity.CRITICAL => 5

/-- `settings.SCRAPING.retry_delay` (seconds). -/
def settings_retry_delay : ℚ := 30

/-- `settings.SCRAPING.check_interval_min` (minutes). -/
def settings_check_interval_min : ℚ := 1

/-- `settings.SCRAPING.check_interval_max` (minutes). -/
def settings_check_interval_max : ℚ := 3

/-- Per-operation counters, mirroring the dict entries of
`SilentRetryEngine.operation_stats`. -/
structure OpStats where
  total_runs : ℕ := 0
  successful_runs : ℕ := 0
  total_attempts : ℕ := 0
  total_duration : ℚ := 0
  consecutive_failures : ℕ := 0
  last_error : Option String := none
  deriving DecidableEq, Repr

/-- The zero-initialised stats record created on first sight of an
operation name. -/
def initStats : OpStats := {}

/-- Look an operation's stats up in the association-list model of the
`operation_stats` dict. -/
def lookupStats (stats : List (String × OpStats)) (name : String) : Option OpStats :=
  (stats.find? (fun e => e.1 == name)).map (fun e => e.2)

/-- Store an operation's stats back (insert at the end when absent,
mirroring dict insertion). -/
def setStats (stats : List (String × OpStats)) (name : String) (v : OpStats) :
    List (String × OpStats) :=
  if (stats.find? (fun e => e.1 == name)).isSome then
    stats.map (fun e => if e.1 == name then (e.1, v) else e)
  else
    stats ++ [(name, v)]

/-- `SilentRetryEngine._update_success_stats`. -/
def _update_success_stats (stats : List (String × OpStats)) (operation_name : String)
    (attempts : ℕ) (duration : ℚ) : List (String × OpStats) :=
  let cur := (lookupStats stats operation_name).getD initStats
  setStats stats operation_name
    { cur with
      total_runs := cur.total_runs + 1,
      successful_runs := cur.successful_runs + 1,
      total_attempts := cur.total_attempts + attempts,
      total_duration := cur.total_duration + duration,
      consecutive_failures := 0 }

/-- `SilentRetryEngine._update_failure_stats`. -/
def _update_failure_stats (stats : List (String × OpStats)) (operation_name : String)
    (attempts : ℕ) (duration : ℚ) (error : String) : List (String × OpStats) :=
  let cur := (lookupStats stats operation_name).getD initStats
  setStats stats operation_name
    { cur with
      total_runs := cur.total_runs + 1,
      total_attempts := cur.total_attempts + attempts,
      total_duration := cur.total_duration + duration,
      consecutive_failures := cur.consecutive_failures + 1,
      last_error := some error }

/-- `SilentRetryEngine._get_recent_success_rate`: aggregate success rate
across all operations, `1` when no runs are recorded. -/
def _get_recent_success_rate (stats : List (String × OpStats)) : ℚ :=
  let total_runs : ℕ := (stats.map (fun e => e.2.total_runs)).sum
  let successful_runs : ℕ := (stats.map (fun e => e.2.successful_runs)).sum
  if total_runs = 0 then 1 else (successful_runs : ℚ) / (total_runs : ℚ)

/-- `SilentRetryEngine._calculate_delay`.  `base` is
`settings.SCRAPING.retry_delay`, `u` is the `random.uniform(0.1, 0.5)` draw
consumed by the jittered branch, `stats` is the snapshot read by the
adaptive branch. -/
def _calculate_delay (base : ℚ) (attempt : ℕ) (strategy : RetryStrategy)
    (severity : ErrorSeverity) (u : ℚ) (stats : List (String × OpStats)) : ℚ :=
  let base_delay := base * severity_multipliers severity
  match strategy with
  | RetryStrategy.LINEAR => base_delay
  | RetryStrategy.EXPONENTIAL => base_delay * 2 ^ (attempt - 1)
  | RetryStrategy.JITTERED =>
      let exponential_delay := base_delay * 2 ^ (attempt - 1)
      let jitter := exponential_delay * u
      exponential_delay + jitter
  | RetryStrategy.ADAPTIVE =>
      let success_rate := _get_recent_success_rate stats
      let multiplier := 3 - 2 * success_rate
      base_delay * multiplier * (attempt : ℚ)

/-- Trace events recorded by the model: operation invocations (with the
attempt number, the model time of the call and the circuit-breaker value at
that moment) and Notifier alert requests. -/
inductive Event where
  | opInvoke (attempt : ℕ) (time : ℚ) (blocked : Option ℚ)
  | alertSent (kind : String)
  deriving DecidableEq, Repr

/-- The process-wide mutable fields of `SilentRetryEngine`. -/
structure EngineState where
  operation_stats : List (String × OpStats) := []
  blocked_until : Option ℚ := none
  max_consecutive_failures : ℕ := 5
  critical_error_cooldown : ℚ := 300
  deriving DecidableEq, Repr

/-- The engine state together with the model clock and the event trace. -/
structure RunState where
  time : ℚ := 0
  engine : EngineState := {}
  events : List Event := []
  deriving DecidableEq, Repr

/-- `asyncio.sleep d`: advance the model clock by `d`. -/
def RunState.sleep (st : RunState) (d : ℚ) : RunState :=
  { st with time := st.time + d }

/-- Append an event to the trace. -/
def RunState.log (st : RunState) (e : Event) : RunState :=
  { st with events := st.events ++ [e] }

/-- `SilentRetryEngine._is_blocked`: true while `now < blocked_until`;
lazily clears an expired block. -/
def _is_blocked (now : ℚ) (eng : EngineState) : Bool × EngineState :=
  match eng.blocked_until with
  | some b => if now < b then (true, eng) else (false, { eng with blocked_until := none })
  | none => (false, eng)

/-- The recovery actions of `SilentRetryEngine`, one constructor per
`_action_*` method. -/
inductive RecoveryAction where
  | simple_retry
  | refresh_page
  | clear_cache
  | restart_driver
  | change_user_agent
  | full_relogin
  | clear_session
  | restart_browser
  | emergency_stop
  | notify_admin
  | ip_rotation
  deriving DecidableEq, Repr

/-- `action.__name__` for each recovery action. -/
def actionName : RecoveryAction → String
  | RecoveryAction.simple_retry => "_action_simple_retry"
  | RecoveryAction.refresh_page => "_action_refresh_page"
  | RecoveryAction.clear_cache => "_action_clear_cache"
  | RecoveryAction.restart_driver => "_action_restart_driver"
  | RecoveryAction.change_user_agent => "_action_change_user_agent"
  | RecoveryAction.full_relogin => "_action_full_relogin"
  | RecoveryAction.clear_session => "_action_clear_session"
  | RecoveryAction.restart_browser => "_action_restart_browser"
  | RecoveryAction.emergency_stop => "_action_emergency_stop"
  | RecoveryAction.notify_admin => "_action_notify_admin"
  | RecoveryAction.ip_rotation => "_action_ip_rotation"

/-- The severity-to-actions table built by the engine constructor. -/
def recovery_actions_table : ErrorSeverity → List RecoveryAction
  | ErrorSeverity.LOW =>
      [RecoveryAction.simple_retry, RecoveryAction.refresh_page]
  | ErrorSeverity.MEDIUM =>
      [RecoveryAction.clear_cache, RecoveryAction.restart_driver,
       RecoveryAction.change_user_agent]
  | ErrorSeverity.HIGH =>
      [RecoveryAction.full_relogin, RecoveryAction.clear_session,
       RecoveryAction.restart_browser]
  | ErrorSeverity.CRITICAL =>
      [RecoveryAction.emergency_stop, RecoveryAction.notify_admin,
       RecoveryAction.ip_rotation]

/-- One `_action_*` method.  The placeholder actions sleep for their fixed
durations and report success; `_action_emergency_stop` opens the circuit
breaker (`blocked_until = now + cooldown`) and reports failure;
`_action_notify_admin` requests a Notifier alert (its send modelled as
succeeding). -/
def runAction : RecoveryAction → RunState → Bool × RunState
  | RecoveryAction.simple_retry, st => (true, st)
  | RecoveryAction.refresh_page, st => (true, st.sleep 1)
  | RecoveryAction.clear_cache, st => (true, st.sleep 1)
  | RecoveryAction.restart_driver, st => (true, st.sleep 2)
  | RecoveryAction.change_user_agent, st => (true, st.sleep 1)
  | RecoveryAction.full_relogin, st => (true, st.sleep 3)
  | RecoveryAction.clear_session, st => (true, st.sleep 2)
  | RecoveryAction.restart_browser, st => (true, st.sleep 5)
  | RecoveryAction.emergency_stop, st =>
      let b := some (st.time + st.engine.critical_error_cooldown)
      (false, { st with engine := { st.engine with blocked_until := b } })
  | RecoveryAction.notify_admin, st => (true, st.log (Event.alertSent "Critical Error"))
  | RecoveryAction.ip_rotation, st => (true, st.sleep 1)

/-- The loop body of `SilentRetryEngine._execute_recovery_actions`: run the
actions in order, stopping at the first that reports success. -/
def recoveryGo : List RecoveryAction → RunState → Bool × RunState
  | [], st => (false, st)
  | a :: rest, st =>
      let r := runAction a st
      if r.1 then (true, r.2) else recoveryGo rest r.2

/-- `SilentRetryEngine._execute_recovery_actions`. -/
def _execute_recovery_actions (severity : ErrorSeverity) (st : RunState) :
    Bool × RunState :=
  recoveryGo (recovery_actions_table severity) st

/-- `SilentRetryEngine._handle_critical_failure`: read the operation's
(already incremented) consecutive-failure counter, add one more, and when
the sum reaches `max_consecutive_failures` open the breaker and request the
auto-block Notifier alert. -/
def _handle_critical_failure (operation_name : String) (st : RunState) : RunState :=
  let operation_stats := (lookupStats st.engine.operation_stats operation_name).getD initStats
  let consecutive_failures := operation_stats.consecutive_failures + 1
  if st.engine.max_consecutive_failures ≤ consecutive_failures then
    { st with
      engine := { st.engine with
        blocked_until := some (st.time + st.engine.critical_error_cooldown) },
      events := st.events ++ [Event.alertSent "System Auto-Block"] }
  else st

/-- `RetryResult` (the RetryOutcome returned to the caller).  In Python
`recovery_actions` defaults to `None`; the model distinguishes `none` from
an attached (possibly empty) list with `Option`. -/
structure RetryResult (α : Type) where
  success : Bool
  final_result : Option α := none
  total_attempts : ℕ := 0
  total_time : ℚ := 0
  error_message : Option String := none
  recovery_actions : Option (List String) := none
  deriving DecidableEq, Repr

/-- The Exhausted path of `execute_with_retry` (the code after the `for`
loop): record the failure in the stats, run the critical-failure handler
when the final error classifies as Critical, and build the failed
RetryResult carrying the recovery-action identifiers of the final
severity. -/
def exhaustedOutcome (α : Type) (ω : Type) (operation_name : String) (max_attempts : ℕ)
    (history : List String) (start_time : ℚ) (st : RunState) (w : ω) :
    RetryResult α × RunState × ω :=
  let total_time := st.time - start_time
  let final_error := history.getLast?.getD "Unknown error"
  let stats1 :=
    _update_failure_stats st.engine.operation_stats operation_name max_attempts
      total_time final_error
  let st1 : RunState := { st with engine := { st.engine with operation_stats := stats1 } }
  let st2 :=
    if _classify_error final_error = ErrorSeverity.CRITICAL then
      _handle_critical_failure operation_name st1
    else st1
  ({ success := false,
     final_result := none,
     total_attempts := max_attempts,
     total_time := total_time,
     error_message := some final_error,
     recovery_actions :=
       some ((recovery_actions_table (_classify_error final_error)).map actionName) },
   st2, w)

/-- The `for attempt in range(1, max_attempts + 1)` loop of
`execute_with_retry`.  `op` is the operation behaviour (attempt number,
current time, external-world state ↦ result and new external state);
`jitter` supplies the per-attempt `random.uniform(0.1, 0.5)` draws; `fuel`
is the number of attempts still allowed including the current one. -/
def attemptLoop {α ω : Type} (op : ℕ → ℚ → ω → Except String α × ω)
    (operation_name : String) (max_attempts : ℕ) (strategy : RetryStrategy)
    (jitter : ℕ → ℚ) (start_time : ℚ) :
    ℕ → ℕ → List String → RunState → ω → RetryResult α × RunState × ω
  | _, 0, history, st, w =>
      exhaustedOutcome α ω operation_name max_attempts history start_time st w
  | attempt, fuel + 1, history, st, w =>
      let st1 := st.log (Event.opInvoke attempt st.time st.engine.blocked_until)
      match op attempt st1.time w with
      | (Except.ok v, w1) =>
          let total_time := st1.time - start_time
          let stats1 :=
            _update_success_stats st1.engine.operation_stats operation_name attempt
              total_time
          ({ success := true,
             final_result := some v,
             total_attempts := attempt,
             total_time := total_time },
           { st1 with engine := { st1.engine with operation_stats := stats1 } },
           w1)
      | (Except.error e, w1) =>
          let history1 := history ++ [e]
          if fuel = 0 then
            exhaustedOutcome α ω operation_name max_attempts history1 start_time st1 w1
          else
            let severity := _classify_error e
            let rec1 := _execute_recovery_actions severity st1
            let d := _calculate_delay settings_retry_delay attempt strategy severity
              (jitter attempt) rec1.2.engine.operation_stats
            attemptLoop op operation_name max_attempts strategy jitter start_time
              (attempt + 1) fuel history1 (rec1.2.sleep d) w1

/-- `SilentRetryEngine.execute_with_retry`: the blocked entry guard followed
by the attempt loop. -/
def execute_with_retry {α ω : Type} (op : ℕ → ℚ → ω → Except String α × ω)
    (operation_name office : String) (max_attempts : ℕ) (strategy : RetryStrategy)
    (jitter : ℕ → ℚ) (st : RunState) (w : ω) : RetryResult α × RunState × ω :=
  let _ := office
  let start_time := st.time
  let pr := _is_blocked st.time st.engine
  let st0 := { st with engine := pr.2 }
  if pr.1 then
    ({ success := false,
       error_message := some "System temporarily blocked due to critical errors",
       recovery_actions := some ["wait_for_cooldown"] },
     st0, w)
  else
    attemptLoop op operation_name max_attempts strategy jitter start_time
      1 max_attempts [] st0 w

/-- The message of the `TypeError` raised inside the `with_retry` wrapper
when it is called with positional arguments (Python prints it with quotes
around operation_func). -/
def typeErrorMsg : String :=
  "execute_with_retry() got multiple values for argument operation_func"

/-- The `with_retry` decorator's wrapper, invoked with `positional_args`
positional arguments (a decorated method always has at least the bound
`self`).  The wrapper forwards them into
`execute_with_retry(operation_func=func, …, *args, **kwargs)`; Python binds
the positional arguments before the keywords, so the first positional
argument lands on `operation_func`, collides with the keyword of the same
name and raises `TypeError: execute_with_retry() got multiple values for
argument operation_func` before the engine or the operation runs.  Only a
call with no positional arguments reaches the engine; then, on success the
wrapper returns the payload and otherwise raises
`Operation failed after retries: …` (both exceptions modelled by
`Except.error`). -/
def with_retry_call {α ω : Type} (positional_args : ℕ)
    (op : ℕ → ℚ → ω → Except String α × ω)
    (operation_name office : String) (max_attempts : ℕ) (strategy : RetryStrategy)
    (jitter : ℕ → ℚ) (st : RunState) (w : ω) :
    Except String (Option α) × RunState × ω :=
  if positional_args = 0 then
    let r := execute_with_retry op operation_name office max_attempts strategy jitter st w
    if r.1.success then (Except.ok r.1.final_result, r.2.1, r.2.2)
    else
      (Except.error ("Operation failed after retries: " ++ r.1.error_message.getD "None"),
       r.2.1, r.2.2)
  else
    (Except.error typeErrorMsg, st, w)

/-- `AppointmentSlot` from backend/core/scraper.py. -/
structure AppointmentSlot where
  date : String
  time : String
  available : Bool
  office : String
  slot_type : String := "standard"
  deriving DecidableEq, Repr

/-- `ScrapingResult` from backend/core/scraper.py (`timestamp` is carried by
the model clock; `screenshot_path` is an opaque string). -/
structure ScrapingResult where
  office : String
  success : Bool
  appointments_found : List AppointmentSlot
  error_message : Option String := none
  screenshot_path : Option String := none
  scraping_duration : ℚ := 0
  deriving DecidableEq, Repr

/-- One entry of `VFSMainController.city_stats`. -/
structure CityStats where
  total_checks : ℕ := 0
  successful_checks : ℕ := 0
  appointments_found : ℕ := 0
  last_check : Option ℚ := none
  last_success : Option ℚ := none
  deriving DecidableEq, Repr

/-- The mutable fields of `VFSMainController` used by the monitoring loop. -/
structure CtrlState where
  city_stats : List (String × CityStats) := []
  last_check_times : List (String × ℚ) := []
  total_checks : ℕ := 0
  appointments_found_total : ℕ := 0
  is_running : Bool := false
  deriving DecidableEq, Repr

/-- Update one city's stats entry in place (the entry exists after
`initialize`; a missing key would be a Python `KeyError`). -/
def updateCity (stats : List (String × CityStats)) (office : String)
    (f : CityStats → CityStats) : List (String × CityStats) :=
  stats.map (fun e => if e.1 == office then (e.1, f e.2) else e)

/-- Store a `last_check_times` entry. -/
def setCheckTime (l : List (String × ℚ)) (office : String) (t : ℚ) :
    List (String × ℚ) :=
  if (l.find? (fun e => e.1 == office)).isSome then
    l.map (fun e => if e.1 == office then (e.1, t) else e)
  else
    l ++ [(office, t)]

/-- The body of `VFSMainController._check_office_with_retry` (the function
wrapped by the `with_retry` decorator): run the scraper check (its behaviour
supplied as `beh`), update the controller statistics on a returned result,
and re-raise a raised fault without touching the statistics. -/
def _check_office_body (office_name : String) (beh : Except String ScrapingResult)
    (now : ℚ) (cs : CtrlState) : Except String ScrapingResult × CtrlState :=
  match beh with
  | Except.error e => (Except.error e, cs)
  | Except.ok result =>
      let cs1 := { cs with
        city_stats := updateCity cs.city_stats office_name
          (fun c => { c with total_checks := c.total_checks + 1 }),
        last_check_times := setCheckTime cs.last_check_times office_name now }
      let onSuccess : CityStats → CityStats := fun c =>
        let c1 := { c with
          successful_checks := c.successful_checks + 1,
          last_success := some now }
        if result.appointments_found.isEmpty then c1
        else { c1 with appointments_found :=
          c1.appointments_found + result.appointments_found.length }
      let cs2 :=
        if result.success then
          { cs1 with city_stats := updateCity cs1.city_stats office_name onSuccess }
        else cs1
      (Except.ok result, { cs2 with total_checks := cs2.total_checks + 1 })

/-- `VFSMainController._check_office_with_retry` as invoked by the
orchestrator: the body above behind `with_retry("office_appointment_check",
max_attempts=3)` (the decorator's `office` defaults to "unknown" and its
strategy to Jittered).  The call site
`self._check_office_with_retry(office_name, scraper)` passes the three
positional arguments `(self, office_name, scraper)` into the wrapper, which
therefore raises the `TypeError` before the engine or the body runs: the
intended body behaviour `beh` is never consulted.  (`execute_with_retry`
also forwards only `**kwargs` to the operation, so the positional
parameters of the body could never be delivered in any case.) -/
def _check_office_with_retry (office_name : String)
    (beh : ℕ → Except String ScrapingResult) (jitter : ℕ → ℚ)
    (st : RunState) (cs : CtrlState) :
    Except String (Option ScrapingResult) × RunState × CtrlState :=
  with_retry_call 3 (fun attempt t c => _check_office_body office_name (beh attempt) t c)
    "office_appointment_check" "unknown" 3 RetryStrategy.JITTERED jitter st cs

/-- One cycle's per-target checks.  `asyncio.gather` over the per-office
tasks is modelled as a deterministic sequential composition; the returned
list holds, per office, either the wrapped check's value or its raised
exception (matching `return_exceptions=True`). -/
def runChecks : List (String × (ℕ → Except String ScrapingResult)) → (ℕ → ℚ) →
    RunState → CtrlState →
    List (Except String (Option ScrapingResult)) × RunState × CtrlState
  | [], _, st, cs => ([], st, cs)
  | (office, beh) :: rest, jitter, st, cs =>
      let r := _check_office_with_retry office beh jitter st cs
      let rr := runChecks rest jitter r.2.1 r.2.2
      (r.1 :: rr.1, rr.2.1, rr.2.2)

/-- `VFSMainController._send_appointment_alert` for each appointment of one
qualifying result: request the Notifier alert and, exactly when the send
reports success (`sendOk`), pause the system (`is_running = False`). -/
def sendAlerts (sendOk : Bool) : List AppointmentSlot → RunState → CtrlState →
    RunState × CtrlState
  | [], st, cs => (st, cs)
  | _ :: rest, st, cs =>
      let st1 := st.log (Event.alertSent "appointment")
      let cs1 := if sendOk then { cs with is_running := false } else cs
      sendAlerts sendOk rest st1 cs1

/-- Processing of one element of the gathered results list inside
`VFSMainController._process_check_results`: exceptions and non-results are
skipped; a successful result with appointments sends one alert per
appointment and accumulates the total. -/
def processResult1 (sendOk : Bool) (r : Except String (Option ScrapingResult))
    (st : RunState) (cs : CtrlState) : RunState × CtrlState :=
  match r with
  | Except.error _ => (st, cs)
  | Except.ok none => (st, cs)
  | Except.ok (some result) =>
      if result.success && !result.appointments_found.isEmpty then
        let p := sendAlerts sendOk result.appointments_found st cs
        (p.1, { p.2 with appointments_found_total :=
          p.2.appointments_found_total + result.appointments_found.length })
      else (st, cs)

/-- `VFSMainController._process_check_results`. -/
def _process_check_results (sendOk : Bool) :
    List (Except String (Option ScrapingResult)) → RunState → CtrlState →
    RunState × CtrlState
  | [], st, cs => (st, cs)
  | r :: rest, st, cs =>
      let p := processResult1 sendOk r st cs
      _process_check_results sendOk rest p.1 p.2

/-- `VFSMainController._calculate_overall_success_rate`. -/
def _calculate_overall_success_rate (stats : List (String × CityStats)) : ℚ :=
  let total_checks : ℕ := (stats.map (fun e => e.2.total_checks)).sum
  let successful_checks : ℕ := (stats.map (fun e => e.2.successful_checks)).sum
  if total_checks = 0 then 1 else (successful_checks : ℚ) / (total_checks : ℚ)

/-- `VFSMainController._calculate_next_delay`; `u` is the
`random.uniform(min_delay, max_delay)` draw (seconds). -/
def _calculate_next_delay (u : ℚ) (stats : List (String × CityStats)) : ℚ :=
  let base_delay := u
  let overall_success_rate := _calculate_overall_success_rate stats
  if overall_success_rate < 1 / 2 then base_delay * (3 / 2)
  else if 9 / 10 < overall_success_rate then base_delay * (4 / 5)
  else base_delay

/-- One iteration of `VFSMainController.run_monitoring_loop`'s `while` body:
concurrent checks, result processing, next-delay computation and the
inter-cycle sleep. -/
def monitoringCycle (behs : List (String × (ℕ → Except String ScrapingResult)))
    (jitter : ℕ → ℚ) (sendOk : Bool) (u : ℚ) (st : RunState) (cs : CtrlState) :
    RunState × CtrlState :=
  let ck := runChecks behs jitter st cs
  let pr := _process_check_results sendOk ck.1 ck.2.1 ck.2.2
  let d := _calculate_next_delay u pr.2.city_stats
  (pr.1.sleep d, pr.2)

/-- The guarded monitoring loop: run up to `n` iterations, each started only
while `is_running` holds (no shutdown signal in scope).  The third component
counts the cycles actually started. -/
def runLoop (behs : List (String × (ℕ → Except String ScrapingResult)))
    (jitter : ℕ → ℚ) (sendOk : Bool) (u : ℚ) :
    ℕ → RunState → CtrlState → RunState × CtrlState × ℕ
  | 0, st, cs => (st, cs, 0)
  | n + 1, st, cs =>
      if cs.is_running then
        let c := monitoringCycle behs jitter sendOk u st cs
        let r := runLoop behs jitter sendOk u n c.1 c.2
        (r.1, r.2.1, r.2.2 + 1)
      else (st, cs, 0)

/-- `VFSMainController.pause_monitoring`. -/
def pause_monitoring (cs : CtrlState) : CtrlState :=
  { cs with is_running := false }

/-- `VFSMainController.resume_monitoring` (the external resume command). -/
def resume_monitoring (cs : CtrlState) : CtrlState :=
  { cs with is_running := true }

/-- `List.find?` returns the first element satisfying the predicate: if the
element at index `i` satisfies `p` and all earlier ones do not, `find?`
returns it. -/
theorem find_first_eq {α : Type} (l : List α) (p : α → Bool) :
    ∀ (i : ℕ) (hi : i < l.length), p (l.get ⟨i, hi⟩) = true →
      (∀ j (hj : j < i), p (l.get ⟨j, Nat.lt_trans hj hi⟩) = false) →
      l.find? p = some (l.get ⟨i, hi⟩) := by
  induction l with
  | nil => intro i hi; exact absurd hi (by simp)
  | cons a as ih =>
      intro i hi hp hj
      cases i with
      | zero => simp only [List.get] at hp; simp [List.find?, hp]
      | succ k =>
          have ha : p a = false := hj 0 (Nat.succ_pos k)
          simp only [List.find?, ha]
          exact ih k (Nat.lt_of_succ_lt_succ hi) hp
            (fun j hjk => hj (j + 1) (Nat.succ_lt_succ hjk))

/-- C7: `classify` is a pure function of the error text and the ordered rule
table: it returns the severity of the first pattern (in declaration order)
contained case-insensitively in the text, `MEDIUM` when no pattern matches;
in particular a text containing both "timeout" and "blocked" classifies
`LOW` because "timeout" is declared first. -/
theorem classify_first_match :
    (∀ (msg : String) (i : ℕ) (hi : i < error_patterns.length),
      strHasSub (strLower msg) (error_patterns.get ⟨i, hi⟩).1 = true →
      (∀ j (hj : j < i),
        strHasSub (strLower msg) (error_patterns.get ⟨j, Nat.lt_trans hj hi⟩).1 = false) →
      _classify_error msg = (error_patterns.get ⟨i, hi⟩).2)
    ∧ (∀ msg : String, (∀ p ∈ error_patterns, strHasSub (strLower msg) p.1 = false) →
      _classify_error msg = ErrorSeverity.MEDIUM)
    ∧ strHasSub (strLower "Read timeout: request blocked by host") "timeout" = true
    ∧ strHasSub (strLower "Read timeout: request blocked by host") "blocked" = true
    ∧ _classify_error "Read timeout: request blocked by host" = ErrorSeverity.LOW := by
  refine ⟨?_, ?_, by decide, by decide, by decide⟩
  · intro msg i hi hp hj
    unfold _classify_error
    rw [find_first_eq error_patterns (fun p => strHasSub (strLower msg) p.1) i hi hp hj]
  · intro msg hall
    unfold _classify_error
    have hnone : error_patterns.find? (fun p => strHasSub (strLower msg) p.1) = none := by
      rw [List.find?_eq_none]
      intro p hp
      simp [hall p hp]
    rw [hnone]

/-- C7 witness: a text matching no pattern classifies `MEDIUM`. -/
theorem classify_first_match_witness :
    _classify_error "zzz unexplained" = ErrorSeverity.MEDIUM :=
  classify_first_match.2.1 "zzz unexplained" (by decide)

/-- The severity multipliers are nonnegative. -/
theorem severity_multipliers_nonneg (s : ErrorSeverity) : 0 ≤ severity_multipliers s := by
  cases s <;> norm_num [severity_multipliers]

/-- C8: for every attempt, severity and jitter fraction `u ∈ [0.1, 0.5]`, the
Jittered delay equals `exp + exp·u` where `exp = base·mult(s)·2^(attempt-1)`
is the Exponential delay on the same inputs; hence Jittered is at least the
Exponential value and at most 1.5 times it. -/
theorem jittered_delay_spec (base u : ℚ) (attempt : ℕ) (severity : ErrorSeverity)
    (stats : List (String × OpStats)) (hbase : 0 ≤ base)
    (hu1 : 1 / 10 ≤ u) (hu2 : u ≤ 1 / 2) :
    _calculate_delay base attempt RetryStrategy.EXPONENTIAL severity u stats
      = base * severity_multipliers severity * 2 ^ (attempt - 1)
    ∧ _calculate_delay base attempt RetryStrategy.JITTERED severity u stats
      = _calculate_delay base attempt RetryStrategy.EXPONENTIAL severity u stats
        + _calculate_delay base attempt RetryStrategy.EXPONENTIAL severity u stats * u
    ∧ _calculate_delay base attempt RetryStrategy.EXPONENTIAL severity u stats
      ≤ _calculate_delay base attempt RetryStrategy.JITTERED severity u stats
    ∧ _calculate_delay base attempt RetryStrategy.JITTERED severity u stats
      ≤ 3 / 2 * _calculate_delay base attempt RetryStrategy.EXPONENTIAL severity u stats := by
  have hmult : 0 ≤ severity_multipliers severity := severity_multipliers_nonneg severity
  have hexp : (0 : ℚ) ≤ base * severity_multipliers severity * 2 ^ (attempt - 1) := by
    positivity
  refine ⟨rfl, rfl, ?_, ?_⟩
  · simp only [_calculate_delay]
    nlinarith
  · simp only [_calculate_delay]
    nlinarith

/-- C8 witness: the relation at `base = 30`, attempt 2, severity Low,
`u = 1/4`. -/
theorem jittered_delay_spec_witness :
    _calculate_delay 30 2 RetryStrategy.JITTERED ErrorSeverity.LOW (1 / 4) []
      ≤ 3 / 2 * _calculate_delay 30 2 RetryStrategy.EXPONENTIAL ErrorSeverity.LOW (1 / 4) [] :=
  (jittered_delay_spec 30 (1 / 4) 2 ErrorSeverity.LOW [] (by norm_num) (by norm_num)
    (by norm_num)).2.2.2

/-- Statistics well-formedness: no operation has more successful runs than
total runs. -/
def StatsWF (stats : List (String × OpStats)) : Prop :=
  ∀ e ∈ stats, e.2.successful_runs ≤ e.2.total_runs

/-- Every entry of `setStats stats name v` is an old entry or carries `v`. -/
theorem mem_setStats {stats : List (String × OpStats)} {name : String} {v : OpStats}
    {e : String × OpStats} (he : e ∈ setStats stats name v) : e ∈ stats ∨ e.2 = v := by
  unfold setStats at he
  by_cases h : (stats.find? (fun e => e.1 == name)).isSome
  · rw [if_pos h] at he
    rcases List.mem_map.mp he with ⟨a, ha, hae⟩
    by_cases hn : a.1 == name
    · right
      rw [if_pos hn] at hae
      rw [← hae]
    · left
      rw [if_neg hn] at hae
      rwa [← hae]
  · rw [if_neg h] at he
    rcases List.mem_append.mp he with h1 | h1
    · exact Or.inl h1
    · right
      rw [List.mem_singleton.mp h1]

/-- A successful `lookupStats` returns the stats of some entry of the list. -/
theorem lookupStats_mem {stats : List (String × OpStats)} {name : String} {c : OpStats}
    (h : lookupStats stats name = some c) : ∃ e ∈ stats, e.2 = c := by
  unfold lookupStats at h
  rcases Option.map_eq_some'.mp h with ⟨e, he, hec⟩
  exact ⟨e, List.mem_of_find?_eq_some he, hec⟩

/-- The stats record read before an update is well-formed whenever the
store is. -/
theorem lookup_getD_wf {stats : List (String × OpStats)} {name : String}
    (hwf : StatsWF stats) :
    ((lookupStats stats name).getD initStats).successful_runs
      ≤ ((lookupStats stats name).getD initStats).total_runs := by
  cases h : lookupStats stats name with
  | none => simp [initStats]
  | some c =>
      rcases lookupStats_mem h with ⟨e, he, hec⟩
      simpa [hec] using hwf e he

/-- C9: `_get_recent_success_rate` returns exactly 1 when no runs are
recorded; otherwise it is the combined quotient (successes over totals,
summed across all operation names); both stats-update operations preserve
well-formedness, and on every well-formed store the rate lies in `[0, 1]`. -/
theorem global_success_rate_spec :
    (∀ stats : List (String × OpStats),
      (stats.map (fun e => e.2.total_runs)).sum = 0 → _get_recent_success_rate stats = 1)
    ∧ (∀ stats : List (String × OpStats),
      (stats.map (fun e => e.2.total_runs)).sum ≠ 0 →
      _get_recent_success_rate stats =
        ((((stats.map (fun e => e.2.successful_runs)).sum : ℕ)) : ℚ)
          / ((((stats.map (fun e => e.2.total_runs)).sum : ℕ)) : ℚ))
    ∧ (∀ stats name attempts duration, StatsWF stats →
        StatsWF (_update_success_stats stats name attempts duration))
    ∧ (∀ stats name attempts duration err, StatsWF stats →
        StatsWF (_update_failure_stats stats name attempts duration err))
    ∧ (∀ stats : List (String × OpStats), StatsWF stats →
        0 ≤ _get_recent_success_rate stats ∧ _get_recent_success_rate stats ≤ 1) := by
  refine ⟨?_, ?_, ?_, ?_, ?_⟩
  · intro stats h
    unfold _get_recent_success_rate
    rw [if_pos h]
  · intro stats h
    unfold _get_recent_success_rate
    rw [if_neg h]
  · intro stats name attempts duration hwf
    intro e he
    rcases mem_setStats he with h1 | h1
    · exact hwf e h1
    · rw [h1]
      exact Nat.succ_le_succ (lookup_getD_wf hwf)
  · intro stats name attempts duration err hwf
    intro e he
    rcases mem_setStats he with h1 | h1
    · exact hwf e h1
    · rw [h1]
      exact Nat.le_succ_of_le (lookup_getD_wf hwf)
  · intro stats hwf
    unfold _get_recent_success_rate
    by_cases h : (stats.map (fun e => e.2.total_runs)).sum = 0
    · rw [if_pos h]
      norm_num
    · have hle : (stats.map (fun e => e.2.successful_runs)).sum
          ≤ (stats.map (fun e => e.2.total_runs)).sum :=
        List.sum_le_sum (fun e he => hwf e he)
      have hpos : (0 : ℚ) < ((((stats.map (fun e => e.2.total_runs)).sum : ℕ)) : ℚ) := by
        have hp : 0 < (stats.map (fun e => e.2.total_runs)).sum := Nat.pos_of_ne_zero h
        exact_mod_cast hp
      rw [if_neg h]
      constructor
      · positivity
      · rw [div_le_one hpos]
        exact_mod_cast hle

/-- C9 witness: the rate on an empty store is exactly 1, and on a concrete
well-formed store it lies in `[0, 1]`. -/
theorem global_success_rate_spec_witness :
    _get_recent_success_rate [] = 1 ∧
    (0 ≤ _get_recent_success_rate [("a", { total_runs := 2, successful_runs := 1 })]
      ∧ _get_recent_success_rate [("a", { total_runs := 2, successful_runs := 1 })] ≤ 1) :=
  ⟨global_success_rate_spec.1 [] rfl,
   global_success_rate_spec.2.2.2.2 [("a", { total_runs := 2, successful_runs := 1 })]
     (by intro e he; rw [List.mem_singleton.mp he]; norm_num)⟩

/-- C6: if the circuit breaker is open at entry (`now < blockedUntil`),
`execute_with_retry` short-circuits immediately with a failed outcome
carrying `total_attempts = 0` and the temporarily-blocked message, performs
no operation call and no statistics update: the whole state (clock, engine
statistics, event trace) and external world are returned unchanged. -/
theorem blocked_entry_short_circuit {α ω : Type} (op : ℕ → ℚ → ω → Except String α × ω)
    (operation_name office : String) (max_attempts : ℕ) (strategy : RetryStrategy)
    (jitter : ℕ → ℚ) (st : RunState) (w : ω) (b : ℚ)
    (hb : st.engine.blocked_until = some b) (ht : st.time < b) :
    execute_with_retry op operation_name office max_attempts strategy jitter st w =
      ({ success := false,
         final_result := none,
         total_attempts := 0,
         total_time := 0,
         error_message := some "System temporarily blocked due to critical errors",
         recovery_actions := some ["wait_for_cooldown"] }, st, w) := by
  unfold execute_with_retry _is_blocked
  rw [hb]
  simp [ht]

/-- C6 witness: the short circuit on a concrete blocked state. -/
theorem blocked_entry_short_circuit_witness :
    execute_with_retry (fun _ _ u => (Except.ok (0 : ℕ), u)) "op" "office" 5
      RetryStrategy.JITTERED (fun _ => 1 / 5)
      { time := 0, engine := { blocked_until := some 100 } } () =
      ({ success := false,
         final_result := none,
         total_attempts := 0,
         total_time := 0,
         error_message := some "System temporarily blocked due to critical errors",
         recovery_actions := some ["wait_for_cooldown"] },
       { time := 0, engine := { blocked_until := some 100 } }, ()) :=
  blocked_entry_short_circuit (fun _ _ u => (Except.ok (0 : ℕ), u)) "op" "office" 5
    RetryStrategy.JITTERED (fun _ => 1 / 5)
    { time := 0, engine := { blocked_until := some 100 } } () 100 rfl (by norm_num)

/-- C2 (amended): an `execute_with_retry` call that starts while the breaker
is open performs zero operation invocations (the event trace is unchanged)
and reports `attempts = 0`; the guarantee covers only calls that start while
the breaker is open, not retry loops already in progress. -/
theorem no_invocation_when_entry_blocked {α ω : Type} (op : ℕ → ℚ → ω → Except String α × ω)
    (operation_name office : String) (max_attempts : ℕ) (strategy : RetryStrategy)
    (jitter : ℕ → ℚ) (st : RunState) (w : ω) (b : ℚ)
    (hb : st.engine.blocked_until = some b) (ht : st.time < b) :
    (execute_with_retry op operation_name office max_attempts strategy jitter st w).2.1.events
      = st.events
    ∧ (execute_with_retry op operation_name office max_attempts strategy jitter st w).1.total_attempts
      = 0
    ∧ (execute_with_retry op operation_name office max_attempts strategy jitter st w).1.success
      = false := by
  unfold execute_with_retry _is_blocked
  rw [hb]
  simp [ht]

/-- C2 amended-claim witness: zero invocations on a concrete blocked call. -/
theorem no_invocation_when_entry_blocked_witness :
    (execute_with_retry (fun _ _ u => (Except.ok (0 : ℕ), u)) "op" "office" 5
      RetryStrategy.JITTERED (fun _ => 1 / 5)
      { time := 10, engine := { blocked_until := some 40 } } ()).2.1.events = [] :=
  (no_invocation_when_entry_blocked (fun _ _ u => (Except.ok (0 : ℕ), u)) "op" "office" 5
    RetryStrategy.JITTERED (fun _ => 1 / 5)
    { time := 10, engine := { blocked_until := some 40 } } () 40 rfl (by norm_num)).1


@[simp] theorem RunState.log_time (st : RunState) (e : Event) : (st.log e).time = st.time := rfl

@[simp] theorem RunState.log_engine (st : RunState) (e : Event) :
    (st.log e).engine = st.engine := rfl

@[simp] theorem RunState.log_events (st : RunState) (e : Event) :
    (st.log e).events = st.events ++ [e] := rfl

@[simp] theorem RunState.sleep_time (st : RunState) (d : ℚ) : (st.sleep d).time = st.time + d := rfl

@[simp] theorem RunState.sleep_engine (st : RunState) (d : ℚ) :
    (st.sleep d).engine = st.engine := rfl

@[simp] theorem RunState.sleep_events (st : RunState) (d : ℚ) :
    (st.sleep d).events = st.events := rfl

/-- The failed outcome built on the Exhausted path, in record form. -/
theorem exhaustedOutcome_fst (α ω : Type) (operation_name : String) (max_attempts : ℕ)
    (history : List String) (start_time : ℚ) (st : RunState) (w : ω) :
    (exhaustedOutcome α ω operation_name max_attempts history start_time st w).1 =
      { success := false,
        final_result := none,
        total_attempts := max_attempts,
        total_time := st.time - start_time,
        error_message := some (history.getLast?.getD "Unknown error"),
        recovery_actions := some ((recovery_actions_table
          (_classify_error (history.getLast?.getD "Unknown error"))).map actionName) } := rfl

/-- One-step unfolding of the attempt loop when the current attempt
succeeds. -/
theorem attemptLoop_step_ok {α ω : Type} (op : ℕ → ℚ → ω → Except String α × ω)
    (operation_name : String) (max_attempts : ℕ) (strategy : RetryStrategy)
    (jitter : ℕ → ℚ) (start_time : ℚ) (attempt fuel : ℕ) (history : List String)
    (st : RunState) (w : ω) (v : α) (w1 : ω)
    (hop : op attempt st.time w = (Except.ok v, w1)) :
    attemptLoop op operation_name max_attempts strategy jitter start_time attempt
      (fuel + 1) history st w =
      ({ success := true, final_result := some v, total_attempts := attempt,
         total_time := st.time - start_time },
       { time := st.time,
         engine := { st.engine with operation_stats := _update_success_stats st.engine.operation_stats operation_name attempt (st.time - start_time) },
         events := st.events ++ [Event.opInvoke attempt st.time st.engine.blocked_until] },
       w1) := by
  simp only [attemptLoop.eq_2, RunState.log_time, RunState.log_engine, RunState.log_events, hop]

/-- One-step unfolding of the attempt loop when the final allowed attempt
fails. -/
theorem attemptLoop_step_error_last {α ω : Type} (op : ℕ → ℚ → ω → Except String α × ω)
    (operation_name : String) (max_attempts : ℕ) (strategy : RetryStrategy)
    (jitter : ℕ → ℚ) (start_time : ℚ) (attempt : ℕ) (history : List String)
    (st : RunState) (w : ω) (e : String) (w1 : ω)
    (hop : op attempt st.time w = (Except.error e, w1)) :
    attemptLoop op operation_name max_attempts strategy jitter start_time attempt
      1 history st w =
      exhaustedOutcome α ω operation_name max_attempts (history ++ [e]) start_time
        (st.log (Event.opInvoke attempt st.time st.engine.blocked_until)) w1 := by
  simp only [attemptLoop.eq_2, RunState.log_time, hop]
  simp

/-- One-step unfolding of the attempt loop when a non-final attempt fails:
run the recovery actions, wait out the computed backoff delay and loop. -/
theorem attemptLoop_step_error {α ω : Type} (op : ℕ → ℚ → ω → Except String α × ω)
    (operation_name : String) (max_attempts : ℕ) (strategy : RetryStrategy)
    (jitter : ℕ → ℚ) (start_time : ℚ) (attempt fuel : ℕ) (history : List String)
    (st : RunState) (w : ω) (e : String) (w1 : ω)
    (hop : op attempt st.time w = (Except.error e, w1)) :
    attemptLoop op operation_name max_attempts strategy jitter start_time attempt
      (fuel + 2) history st w =
      attemptLoop op operation_name max_attempts strategy jitter start_time (attempt + 1)
        (fuel + 1) (history ++ [e])
        ((_execute_recovery_actions (_classify_error e)
            (st.log (Event.opInvoke attempt st.time st.engine.blocked_until))).2.sleep
          (_calculate_delay settings_retry_delay attempt strategy (_classify_error e)
            (jitter attempt)
            (_execute_recovery_actions (_classify_error e)
              (st.log (Event.opInvoke attempt st.time
                st.engine.blocked_until))).2.engine.operation_stats))
        w1 := by
  simp only [attemptLoop.eq_2, RunState.log_time, hop]
  rfl

/-- Shape of every outcome produced by the attempt loop: a successful
outcome carries no recovery-action list and no error message; a failed
(exhausted) outcome carries both. -/
theorem attemptLoop_outcome_shape {α ω : Type} (op : ℕ → ℚ → ω → Except String α × ω)
    (operation_name : String) (max_attempts : ℕ) (strategy : RetryStrategy)
    (jitter : ℕ → ℚ) (start_time : ℚ) :
    ∀ (fuel attempt : ℕ) (history : List String) (st : RunState) (w : ω),
      ((attemptLoop op operation_name max_attempts strategy jitter start_time
          attempt fuel history st w).1.success = true →
        (attemptLoop op operation_name max_attempts strategy jitter start_time
          attempt fuel history st w).1.recovery_actions = none
        ∧ (attemptLoop op operation_name max_attempts strategy jitter start_time
            attempt fuel history st w).1.error_message = none)
      ∧ ((attemptLoop op operation_name max_attempts strategy jitter start_time
          attempt fuel history st w).1.success = false →
        (attemptLoop op operation_name max_attempts strategy jitter start_time
          attempt fuel history st w).1.recovery_actions.isSome = true
        ∧ (attemptLoop op operation_name max_attempts strategy jitter start_time
            attempt fuel history st w).1.error_message.isSome = true) := by
  intro fuel
  induction fuel with
  | zero =>
      intro attempt history st w
      rw [attemptLoop.eq_1, exhaustedOutcome_fst]
      exact ⟨fun h => by simp at h, fun _ => ⟨rfl, rfl⟩⟩
  | succ n ih =>
      intro attempt history st w
      rcases hop : op attempt st.time w with ⟨res, w1⟩
      cases res with
      | ok v =>
          rw [attemptLoop_step_ok op operation_name max_attempts strategy jitter
            start_time attempt n history st w v w1 hop]
          exact ⟨fun _ => ⟨rfl, rfl⟩, fun h => by simp at h⟩
      | error e =>
          cases n with
          | zero =>
              rw [attemptLoop_step_error_last op operation_name max_attempts strategy jitter
                start_time attempt history st w e w1 hop, exhaustedOutcome_fst]
              exact ⟨fun h => by simp at h, fun _ => ⟨rfl, rfl⟩⟩
          | succ m =>
              rw [attemptLoop_step_error op operation_name max_attempts strategy jitter
                start_time attempt m history st w e w1 hop]
              exact ih _ _ _ _

/-- C10: whenever `execute_with_retry` returns a successful outcome, its
`recovery_actions` field is `None` and its `error_message` is `None`; a
recovery-action identifier list is attached exactly to the failed outcomes
(the exhausted outcome and the blocked short circuit). -/
theorem success_outcome_carries_no_actions {α ω : Type} (op : ℕ → ℚ → ω → Except String α × ω)
    (operation_name office : String) (max_attempts : ℕ) (strategy : RetryStrategy)
    (jitter : ℕ → ℚ) (st : RunState) (w : ω) :
    ((execute_with_retry op operation_name office max_attempts strategy jitter st w).1.success
        = true →
      (execute_with_retry op operation_name office max_attempts strategy jitter st w).1.recovery_actions
        = none
      ∧ (execute_with_retry op operation_name office max_attempts strategy jitter st w).1.error_message
        = none)
    ∧ ((execute_with_retry op operation_name office max_attempts strategy jitter st w).1.success
        = false →
      (execute_with_retry op operation_name office max_attempts strategy jitter st w).1.recovery_actions.isSome
        = true
      ∧ (execute_with_retry op operation_name office max_attempts strategy jitter st w).1.error_message.isSome
        = true) := by
  unfold execute_with_retry
  by_cases hbl : (_is_blocked st.time st.engine).1
  · simp only [hbl, if_true]
    exact ⟨fun h => by simp at h, fun _ => ⟨rfl, rfl⟩⟩
  · simp only [hbl, if_false, Bool.false_eq_true]
    exact attemptLoop_outcome_shape op operation_name max_attempts strategy jitter
      st.time max_attempts 1 [] _ w

/-- C10 witness: a concrete run succeeding on attempt 1 carries neither a
recovery-action list nor an error message. -/
theorem success_outcome_carries_no_actions_witness :
    (execute_with_retry (fun _ _ u => (Except.ok (7 : ℕ), u)) "op" "office" 3
      RetryStrategy.LINEAR (fun _ => 1 / 5) {} ()).1.recovery_actions = none
    ∧ (execute_with_retry (fun _ _ u => (Except.ok (7 : ℕ), u)) "op" "office" 3
      RetryStrategy.LINEAR (fun _ => 1 / 5) {} ()).1.error_message = none :=
  (success_outcome_carries_no_actions (fun _ _ u => (Except.ok (7 : ℕ), u)) "op" "office" 3
    RetryStrategy.LINEAR (fun _ => 1 / 5) {} ()).1
    (by rw [execute_with_retry]
        simp only [_is_blocked]
        rw [attemptLoop_step_ok (fun _ _ u => (Except.ok (7 : ℕ), u)) "op" 3
          RetryStrategy.LINEAR (fun _ => 1 / 5) 0 1 2 [] _ () 7 () rfl]
        simp)

/-- For a non-Critical severity, the recovery tier touches neither the
engine state nor the event trace (its placeholder actions only sleep). -/
theorem recovery_noncrit (sev : ErrorSeverity) (st : RunState)
    (h : sev ≠ ErrorSeverity.CRITICAL) :
    (_execute_recovery_actions sev st).2.engine = st.engine
    ∧ (_execute_recovery_actions sev st).2.events = st.events := by
  cases sev with
  | LOW => exact ⟨rfl, rfl⟩
  | MEDIUM => exact ⟨rfl, rfl⟩
  | HIGH => exact ⟨rfl, rfl⟩
  | CRITICAL => exact absurd rfl h

/-- If every attempt fails and no non-final failure classifies Critical, the
attempt loop reaches the Exhausted path with the accumulated error history;
the state at exhaustion carries the engine unchanged and only
operation-invocation events appended. -/
theorem attemptLoop_all_fail {α ω : Type} (op : ℕ → ℚ → ω → Except String α × ω)
    (operation_name : String) (max_attempts : ℕ) (strategy : RetryStrategy)
    (jitter : ℕ → ℚ) (start_time : ℚ) (errs : ℕ → String)
    (hop : ∀ k t w', op k t w' = (Except.error (errs k), w')) :
    ∀ (fuel attempt : ℕ) (history : List String) (st : RunState) (w : ω),
      (∀ k, attempt ≤ k → k < attempt + fuel →
        _classify_error (errs k) ≠ ErrorSeverity.CRITICAL) →
      ∃ st' : RunState,
        attemptLoop op operation_name max_attempts strategy jitter start_time attempt
          (fuel + 1) history st w =
          exhaustedOutcome α ω operation_name max_attempts
            (history ++ (List.range' attempt (fuel + 1)).map errs) start_time st' w
        ∧ st'.engine = st.engine
        ∧ (∃ l : List Event, st'.events = st.events ++ l
            ∧ ∀ ev ∈ l, ∃ a t b, ev = Event.opInvoke a t b) := by
  intro fuel
  induction fuel with
  | zero =>
      intro attempt history st w _
      refine ⟨st.log (Event.opInvoke attempt st.time st.engine.blocked_until), ?_, rfl, ?_⟩
      · rw [attemptLoop_step_error_last op operation_name max_attempts strategy jitter
          start_time attempt history st w (errs attempt) w (hop attempt st.time w)]
        rfl
      · exact ⟨[Event.opInvoke attempt st.time st.engine.blocked_until], rfl,
          fun ev hev => ⟨attempt, st.time, st.engine.blocked_until,
            List.mem_singleton.mp hev⟩⟩
  | succ n ih =>
      intro attempt history st w hsev
      rw [attemptLoop_step_error op operation_name max_attempts strategy jitter
        start_time attempt n history st w (errs attempt) w (hop attempt st.time w)]
      have hcur : _classify_error (errs attempt) ≠ ErrorSeverity.CRITICAL :=
        hsev attempt (Nat.le_refl attempt) (by omega)
      have hrec := recovery_noncrit (_classify_error (errs attempt))
        (st.log (Event.opInvoke attempt st.time st.engine.blocked_until)) hcur
      rcases ih (attempt + 1) (history ++ [errs attempt]) _ w
          (fun k hk1 hk2 => hsev k (by omega) (by omega)) with ⟨st', heq, heng, l, hev, hl⟩
      refine ⟨st', ?_, ?_, ?_⟩
      · rw [heq]
        have hh : history ++ [errs attempt]
            ++ (List.range' (attempt + 1) (n + 1)).map errs
            = history ++ (List.range' attempt (n + 1 + 1)).map errs := by
          rw [List.append_assoc]
          rfl
        rw [hh]
      · rw [heng]
        simp [hrec.1]
      · refine ⟨Event.opInvoke attempt st.time st.engine.blocked_until :: l, ?_, ?_⟩
        · rw [hev]
          simp [hrec.2]
        · intro ev hev2
          rcases List.mem_cons.mp hev2 with h1 | h1
          · exact ⟨attempt, st.time, st.engine.blocked_until, h1⟩
          · exact hl ev h1

/-- `find?` on a cons whose head fails the predicate. -/
theorem find_cons_false {γ : Type} (p : γ → Bool) (a : γ) (l : List γ) (h : p a = false) :
    (a :: l).find? p = l.find? p := by
  simp [List.find?, h]

/-- `find?` on a cons whose head satisfies the predicate. -/
theorem find_cons_true {γ : Type} (p : γ → Bool) (a : γ) (l : List γ) (h : p a = true) :
    (a :: l).find? p = some a := by
  simp [List.find?, h]

/-- After overwriting `name` in place, looking `name` up yields the new
value. -/
theorem lookupStats_map_set (name : String) (v : OpStats) :
    ∀ stats : List (String × OpStats),
      (stats.find? (fun e => e.1 == name)).isSome = true →
      lookupStats (stats.map (fun e => if e.1 == name then (e.1, v) else e)) name = some v := by
  intro stats
  induction stats with
  | nil => intro h; simp [List.find?] at h
  | cons a as ih =>
      intro h
      by_cases ha : (a.1 == name) = true
      · unfold lookupStats
        rw [List.map_cons, if_pos ha,
          find_cons_true (fun e => e.1 == name) (a.1, v) _ (by simpa using ha)]
        rfl
      · have ha' : (a.1 == name) = false := by
          exact Bool.not_eq_true _ ▸ (by simpa using ha)
        rw [find_cons_false (fun e => e.1 == name) a as ha'] at h
        unfold lookupStats
        rw [List.map_cons, if_neg (by simp [ha']),
          find_cons_false (fun e => e.1 == name) a _ ha']
        exact ih h

/-- After appending a fresh entry for `name`, looking `name` up yields it. -/
theorem lookupStats_append_new (name : String) (v : OpStats) :
    ∀ stats : List (String × OpStats),
      stats.find? (fun e => e.1 == name) = none →
      lookupStats (stats ++ [(name, v)]) name = some v := by
  intro stats
  induction stats with
  | nil => intro _; simp [lookupStats, List.find?]
  | cons a as ih =>
      intro h
      have ha : ((a.1 == name) : Bool) = false := by
        rw [List.find?_eq_none] at h
        have := h a (List.mem_cons_self a as)
        simpa using this
      rw [find_cons_false (fun e => e.1 == name) a as ha] at h
      unfold lookupStats
      rw [List.cons_append, find_cons_false (fun e => e.1 == name) a _ ha]
      exact ih h

/-- `setStats` followed by a lookup of the same name yields the stored
value. -/
theorem lookupStats_setStats (stats : List (String × OpStats)) (name : String) (v : OpStats) :
    lookupStats (setStats stats name v) name = some v := by
  unfold setStats
  by_cases h : (stats.find? (fun e => e.1 == name)).isSome
  · rw [if_pos h]
    exact lookupStats_map_set name v stats h
  · rw [if_neg h]
    exact lookupStats_append_new name v stats (Option.not_isSome_iff_eq_none.mp h)

/-- The last of the errors collected from attempts `a, …, a + n`. -/
theorem map_range_getLast (errs : ℕ → String) (a n : ℕ) (d : String) :
    (((List.range' a (n + 1)).map errs).getLast?).getD d = errs (a + n) := by
  rw [List.range'_1_concat, List.map_append]
  simp

/-- With the breaker closed at entry, `execute_with_retry` is exactly the
attempt loop started at attempt 1 with full fuel. -/
theorem execute_unblocked {α ω : Type} (op : ℕ → ℚ → ω → Except String α × ω)
    (operation_name office : String) (max_attempts : ℕ) (strategy : RetryStrategy)
    (jitter : ℕ → ℚ) (st : RunState) (w : ω)
    (hnb : st.engine.blocked_until = none) :
    execute_with_retry op operation_name office max_attempts strategy jitter st w =
      attemptLoop op operation_name max_attempts strategy jitter st.time 1 max_attempts
        [] st w := by
  unfold execute_with_retry _is_blocked
  rw [hnb]
  rfl

/-- The orchestrator-facing decorated check always raises the wrapper
TypeError, returning the state and controller untouched: the engine and the
scraper-check body never run. -/
theorem check_office_typeerror (office_name : String)
    (beh : ℕ → Except String ScrapingResult) (jitter : ℕ → ℚ)
    (st : RunState) (cs : CtrlState) :
    _check_office_with_retry office_name beh jitter st cs
      = (Except.error typeErrorMsg, st, cs) := rfl

/-- C5 (amended): `execute_with_retry` itself catches every operation
failure and returns a failed RetryOutcome carrying the final error, and a
zero-positional-argument wrapped call re-raises an unsuccessful outcome as
`Operation failed after retries: …`; but the orchestrator-facing call never
reaches the engine at all: the decorated method is invoked with the
positional arguments `(self, office_name, scraper)`, so the wrapper raises
the TypeError (got multiple values for argument operation_func) first, and
the orchestrator-facing call completes exceptionally on every invocation,
whatever the check behaviour. -/
theorem retry_outcome_vs_wrapper {α ω : Type} (op : ℕ → ℚ → ω → Except String α × ω)
    (operation_name office : String) (m : ℕ) (strategy : RetryStrategy)
    (jitter : ℕ → ℚ) (st : RunState) (w : ω) (errs : ℕ → String)
    (hop : ∀ k t w', op k t w' = (Except.error (errs k), w'))
    (hnb : st.engine.blocked_until = none)
    (hsev : ∀ k, 1 ≤ k → k < m + 1 → _classify_error (errs k) ≠ ErrorSeverity.CRITICAL) :
    (execute_with_retry op operation_name office (m + 1) strategy jitter st w).1.success = false
    ∧ (execute_with_retry op operation_name office (m + 1) strategy jitter st w).1.error_message
        = some (errs (m + 1))
    ∧ (with_retry_call 0 op operation_name office (m + 1) strategy jitter st w).1
        = Except.error ("Operation failed after retries: " ++ errs (m + 1))
    ∧ (∀ positional_args : ℕ, positional_args ≠ 0 →
        with_retry_call positional_args op operation_name office (m + 1) strategy jitter st w
          = (Except.error typeErrorMsg, st, w))
    ∧ (∀ (office2 : String) (beh : ℕ → Except String ScrapingResult) (jitter2 : ℕ → ℚ)
        (st2 : RunState) (cs2 : CtrlState),
        _check_office_with_retry office2 beh jitter2 st2 cs2
          = (Except.error typeErrorMsg, st2, cs2)) := by
  rcases attemptLoop_all_fail op operation_name (m + 1) strategy jitter st.time errs hop
      m 1 [] st w (fun k h1 h2 => hsev k h1 (by omega)) with ⟨st', heq, _, _⟩
  have h1 : execute_with_retry op operation_name office (m + 1) strategy jitter st w =
      exhaustedOutcome α ω operation_name (m + 1)
        ((List.range' 1 (m + 1)).map errs) st.time st' w := by
    rw [execute_unblocked op operation_name office (m + 1) strategy jitter st w hnb, heq]
    rw [List.nil_append]
  have herr : ((((List.range' 1 (m + 1)).map errs).getLast?).getD "Unknown error")
      = errs (m + 1) := by
    rw [map_range_getLast errs 1 m "Unknown error", Nat.add_comm]
  refine ⟨?_, ?_, ?_, ?_, ?_⟩
  · rw [h1, exhaustedOutcome_fst]
  · rw [h1, exhaustedOutcome_fst]
    simpa using congrArg some herr
  · unfold with_retry_call
    rw [h1]
    have herr2 : (Option.map errs (List.range' 1 (m + 1)).getLast?).getD "Unknown error"
        = errs (m + 1) := by
      rw [← List.getLast?_map]
      exact herr
    simp [exhaustedOutcome_fst, herr2]
  · intro positional_args hpa
    unfold with_retry_call
    rw [if_neg hpa]
  · intro office2 beh jitter2 st2 cs2
    exact check_office_typeerror office2 beh jitter2 st2 cs2

/-- C5 witness: a concrete operation failing on all three attempts makes the
zero-positional wrapped call complete exceptionally with the wrapped
message (and the concrete orchestrator-facing call with the TypeError). -/
theorem retry_outcome_vs_wrapper_witness :
    (with_retry_call 0 (fun _ _ (u : Unit) => ((Except.error "boom" : Except String ℕ), u))
      "op" "office" 3 RetryStrategy.LINEAR (fun _ => 1 / 5) {} ()).1
      = Except.error "Operation failed after retries: boom" :=
  (retry_outcome_vs_wrapper (fun _ _ (u : Unit) => ((Except.error "boom" : Except String ℕ), u))
    "op" "office" 2 RetryStrategy.LINEAR (fun _ => 1 / 5) {} () (fun _ => "boom")
    (fun _ _ _ => rfl) rfl
    (fun k _ _ => by
      show _classify_error "boom" ≠ ErrorSeverity.CRITICAL
      decide)).2.2.1

/-- An operation behaviour that fails every attempt with a fixed error. -/
def opFailWith (e : String) : ℕ → ℚ → Unit → Except String Unit × Unit :=
  fun _ _ u => (Except.error e, u)

/-- An engine state whose only operation already has 3 recorded consecutive
failures (threshold 5, cooldown 300 — the defaults). -/
def enginePrior3 : EngineState :=
  { operation_stats := [("op", { total_runs := 3, total_attempts := 3, consecutive_failures := 3 })] }

/-- C1 counterexample: with a prior consecutive-failure count of 3, a
single-attempt run exhausting on the Critical error "blocked by vfs" leaves
the post-increment count at 4 — strictly below the threshold 5 — yet the
circuit breaker is opened (`blockedUntil = now + 300`) and the auto-block
Notifier alert is requested, contradicting "not at any lower count". -/
theorem critical_trigger_counterexample :
    ((execute_with_retry (opFailWith "blocked by vfs") "op" "x" 1 RetryStrategy.LINEAR
        (fun _ => 0) { time := 0, engine := enginePrior3 } ()).2.1.engine.operation_stats
      = [("op", { total_runs := 4, total_attempts := 4, consecutive_failures := 4, last_error := some "blocked by vfs" })])
    ∧ (4 : ℕ) < 5
    ∧ ((execute_with_retry (opFailWith "blocked by vfs") "op" "x" 1 RetryStrategy.LINEAR
        (fun _ => 0) { time := 0, engine := enginePrior3 } ()).2.1.engine.blocked_until
      = some 300)
    ∧ Event.alertSent "System Auto-Block"
        ∈ (execute_with_retry (opFailWith "blocked by vfs") "op" "x" 1 RetryStrategy.LINEAR
            (fun _ => 0) { time := 0, engine := enginePrior3 } ()).2.1.events := by
  have hc : _classify_error "blocked by vfs" = ErrorSeverity.CRITICAL := by decide
  refine ⟨?_, by norm_num, ?_, ?_⟩ <;>
    norm_num [execute_with_retry, attemptLoop, _is_blocked, exhaustedOutcome, opFailWith,
      enginePrior3, hc, _handle_critical_failure, lookupStats, _update_failure_stats,
      initStats, setStats, RunState.log, List.find?]

/-- C2 counterexample: a two-attempt run on a Critical error ("cloudflare
detected"): the Critical recovery tier's emergency stop opens the breaker
(`blockedUntil = 300`) between the attempts, and attempt 2 still invokes the
operation at time 150 — while `150 < 300`, i.e. while the breaker is open. -/
theorem invocation_while_open_counterexample :
    ((execute_with_retry (opFailWith "cloudflare detected") "op" "x" 2 RetryStrategy.LINEAR
        (fun _ => 0) {} ()).2.1.events
      = [Event.opInvoke 1 0 none, Event.alertSent "Critical Error",
         Event.opInvoke 2 150 (some 300)])
    ∧ (150 : ℚ) < 300 := by
  have hc : _classify_error "cloudflare detected" = ErrorSeverity.CRITICAL := by decide
  refine ⟨?_, by norm_num⟩
  norm_num [execute_with_retry, attemptLoop, _is_blocked, exhaustedOutcome, opFailWith,
    _execute_recovery_actions, recovery_actions_table, recoveryGo, runAction, hc,
    _calculate_delay, severity_multipliers, settings_retry_delay, RunState.sleep,
    RunState.log, _handle_critical_failure, lookupStats, _update_failure_stats,
    initStats, setStats, _get_recent_success_rate, List.find?]

/-- C5 counterexample: the orchestrator-facing call
`self._check_office_with_retry(office_name, scraper)` — here with a check
behaviour that raises "boom" — completes exceptionally: the wrapper raises
the TypeError before the engine or the check body runs, refuting "the
orchestrator-facing call never completes exceptionally". -/
theorem wrapper_completes_exceptionally_counterexample :
    (_check_office_with_retry "A" (fun _ => Except.error "boom") (fun _ => 1 / 5)
        { time := 0 } { city_stats := [("A", {})], is_running := true }).1
      = Except.error "execute_with_retry() got multiple values for argument operation_func" :=
  rfl

/-- A failure-stats update leaves the operation's entry present with the
consecutive-failure counter incremented by exactly 1 and the error
recorded. -/
theorem lookupStats_update_failure (stats : List (String × OpStats)) (name : String)
    (attempts : ℕ) (duration : ℚ) (error : String) :
    ∃ v : OpStats,
      lookupStats (_update_failure_stats stats name attempts duration error) name = some v
      ∧ v.consecutive_failures
          = ((lookupStats stats name).getD initStats).consecutive_failures + 1
      ∧ v.last_error = some error := by
  unfold _update_failure_stats
  exact ⟨_, lookupStats_setStats _ _ _, rfl, rfl⟩

/-- On a Critical final error, the Exhausted path's state is: record the
failure in the stats, then run the critical-failure handler. -/
theorem exhaustedOutcome_critical_state (α ω : Type) (operation_name : String)
    (max_attempts : ℕ) (history : List String) (start_time : ℚ) (st : RunState) (w : ω)
    (hcrit : _classify_error (history.getLast?.getD "Unknown error")
      = ErrorSeverity.CRITICAL) :
    (exhaustedOutcome α ω operation_name max_attempts history start_time st w).2.1 =
      _handle_critical_failure operation_name
        { st with engine := { st.engine with operation_stats := _update_failure_stats st.engine.operation_stats operation_name max_attempts (st.time - start_time) (history.getLast?.getD "Unknown error") } } := by
  unfold exhaustedOutcome
  simp only [hcrit, if_pos]

/-- The critical-failure handler in closed form, given the operation's
(already updated) stats entry. -/
theorem handle_critical_spec (operation_name : String) (st : RunState) (v : OpStats)
    (hv : lookupStats st.engine.operation_stats operation_name = some v) :
    _handle_critical_failure operation_name st =
      if st.engine.max_consecutive_failures ≤ v.consecutive_failures + 1 then
        { st with
          engine := { st.engine with blocked_until := some (st.time + st.engine.critical_error_cooldown) },
          events := st.events ++ [Event.alertSent "System Auto-Block"] }
      else st := by
  unfold _handle_critical_failure
  rw [hv]
  rfl

/-- C1 (amended): on the Exhausted path with a Critical final error (and no
Critical failure on the earlier attempts), the executor first increments the
operation's consecutive-failure counter by exactly 1; but the handler then
re-adds 1 to the already-incremented stored counter, so the breaker is
opened and the auto-block Notifier alert requested exactly when the
post-increment count is at least threshold − 1 (prior count + 2 ≥
threshold), i.e. one terminal failure earlier than the threshold. -/
theorem critical_exhaustion_trigger {α : Type} (op : ℕ → ℚ → Unit → Except String α × Unit)
    (operation_name office : String) (m : ℕ) (strategy : RetryStrategy) (jitter : ℕ → ℚ)
    (st : RunState) (errs : ℕ → String)
    (hop : ∀ k t w', op k t w' = (Except.error (errs k), w'))
    (hnb : st.engine.blocked_until = none)
    (hev : st.events = [])
    (hsev : ∀ k, 1 ≤ k → k < m + 1 → _classify_error (errs k) ≠ ErrorSeverity.CRITICAL)
    (hcrit : _classify_error (errs (m + 1)) = ErrorSeverity.CRITICAL) :
    (execute_with_retry op operation_name office (m + 1) strategy jitter st ()).1.success = false
    ∧ ((lookupStats (execute_with_retry op operation_name office (m + 1) strategy jitter st ()).2.1.engine.operation_stats operation_name).getD initStats).consecutive_failures
        = ((lookupStats st.engine.operation_stats operation_name).getD initStats).consecutive_failures + 1
    ∧ ((execute_with_retry op operation_name office (m + 1) strategy jitter st ()).2.1.engine.blocked_until.isSome = true
        ↔ st.engine.max_consecutive_failures
            ≤ ((lookupStats st.engine.operation_stats operation_name).getD initStats).consecutive_failures + 2)
    ∧ (Event.alertSent "System Auto-Block"
          ∈ (execute_with_retry op operation_name office (m + 1) strategy jitter st ()).2.1.events
        ↔ st.engine.max_consecutive_failures
            ≤ ((lookupStats st.engine.operation_stats operation_name).getD initStats).consecutive_failures + 2) := by
  rcases attemptLoop_all_fail op operation_name (m + 1) strategy jitter st.time errs hop
      m 1 [] st () (fun k h1 h2 => hsev k h1 (by omega)) with ⟨st', heq, heng, l, hevents, hl⟩
  have h1 : execute_with_retry op operation_name office (m + 1) strategy jitter st () =
      exhaustedOutcome α Unit operation_name (m + 1) ((List.range' 1 (m + 1)).map errs)
        st.time st' () := by
    rw [execute_unblocked op operation_name office (m + 1) strategy jitter st () hnb, heq,
      List.nil_append]
  have herr : ((((List.range' 1 (m + 1)).map errs).getLast?).getD "Unknown error")
      = errs (m + 1) := by
    rw [map_range_getLast errs 1 m "Unknown error", Nat.add_comm]
  have hstate : (execute_with_retry op operation_name office (m + 1) strategy jitter st ()).2.1 =
      _handle_critical_failure operation_name
        { st' with engine := { st'.engine with operation_stats := _update_failure_stats st'.engine.operation_stats operation_name (m + 1) (st'.time - st.time) (errs (m + 1)) } } := by
    rw [h1, exhaustedOutcome_critical_state α Unit operation_name (m + 1)
      ((List.range' 1 (m + 1)).map errs) st.time st' () (by rw [herr]; exact hcrit)]
    rw [herr]
  rcases lookupStats_update_failure st'.engine.operation_stats operation_name (m + 1)
      (st'.time - st.time) (errs (m + 1)) with ⟨v, hv, hvc, _⟩
  have hcc : v.consecutive_failures
      = ((lookupStats st.engine.operation_stats operation_name).getD initStats).consecutive_failures
        + 1 := by
    rw [hvc, heng]
  have hhandler := handle_critical_spec operation_name
    { st' with engine := { st'.engine with operation_stats := _update_failure_stats st'.engine.operation_stats operation_name (m + 1) (st'.time - st.time) (errs (m + 1)) } }
    v hv
  have hmax : ({ st' with engine := { st'.engine with operation_stats := _update_failure_stats st'.engine.operation_stats operation_name (m + 1) (st'.time - st.time) (errs (m + 1)) } } : RunState).engine.max_consecutive_failures
      = st.engine.max_consecutive_failures := by
    show st'.engine.max_consecutive_failures = st.engine.max_consecutive_failures
    rw [heng]
  have halert : Event.alertSent "System Auto-Block" ∉ st'.events := by
    intro hmem
    rw [hevents, hev, List.nil_append] at hmem
    rcases hl _ hmem with ⟨a, t, b, habs⟩
    simp at habs
  refine ⟨?_, ?_, ?_, ?_⟩
  · rw [h1, exhaustedOutcome_fst]
  · rw [hstate, hhandler, hmax]
    by_cases hth : st.engine.max_consecutive_failures ≤ v.consecutive_failures + 1
    · rw [if_pos hth]
      show ((lookupStats (_update_failure_stats st'.engine.operation_stats operation_name
        (m + 1) (st'.time - st.time) (errs (m + 1))) operation_name).getD initStats).consecutive_failures = _
      rw [hv]
      simpa using hcc
    · rw [if_neg hth]
      show ((lookupStats (_update_failure_stats st'.engine.operation_stats operation_name
        (m + 1) (st'.time - st.time) (errs (m + 1))) operation_name).getD initStats).consecutive_failures = _
      rw [hv]
      simpa using hcc
  · rw [hstate, hhandler, hmax]
    by_cases hth : st.engine.max_consecutive_failures ≤ v.consecutive_failures + 1
    · rw [if_pos hth]
      simp only [Option.isSome_some, true_iff]
      omega
    · rw [if_neg hth]
      show (st'.engine.blocked_until.isSome = true ↔ _)
      rw [heng, hnb]
      simp only [Option.isSome_none, Bool.false_eq_true, false_iff]
      omega
  · rw [hstate, hhandler, hmax]
    by_cases hth : st.engine.max_consecutive_failures ≤ v.consecutive_failures + 1
    · rw [if_pos hth]
      constructor
      · intro _
        omega
      · intro _
        show Event.alertSent "System Auto-Block" ∈ st'.events ++ [Event.alertSent "System Auto-Block"]
        exact List.mem_append_right _ (List.mem_singleton_self _)
    · rw [if_neg hth]
      constructor
      · intro hmem
        exact absurd hmem halert
      · intro hcond
        exact absurd (by omega : st.engine.max_consecutive_failures ≤ v.consecutive_failures + 1) hth

/-- Fails attempt 1 with a Low error and attempt 2 with a Critical one. -/
def opTimeoutThenBanned : ℕ → ℚ → Unit → Except String Unit × Unit :=
  fun k _ u => (Except.error (if k = 2 then "banned" else "timeout"), u)

/-- C1 witness: on a fresh engine a two-attempt critical exhaustion
increments the consecutive-failure counter from 0 to exactly 1. -/
theorem critical_exhaustion_trigger_witness :
    ((lookupStats (execute_with_retry opTimeoutThenBanned "op" "x" 2 RetryStrategy.LINEAR
        (fun _ => 0) {} ()).2.1.engine.operation_stats "op").getD initStats).consecutive_failures
      = ((lookupStats ({} : RunState).engine.operation_stats "op").getD
          initStats).consecutive_failures + 1 :=
  (critical_exhaustion_trigger opTimeoutThenBanned "op" "x" 1 RetryStrategy.LINEAR
    (fun _ => 0) {} (fun k => if k = 2 then "banned" else "timeout")
    (fun _ _ _ => rfl) rfl rfl
    (fun k h1 h2 => by
      have hk : k = 1 := by omega
      subst hk
      decide)
    (by decide)).2.1

/-- A successful scraping result for one office. -/
def okResult (office : String) (apps : List AppointmentSlot) : ScrapingResult :=
  { office := office, success := true, appointments_found := apps }

/-- A concrete detected appointment slot. -/
def testAppointment : AppointmentSlot :=
  { date := "2025-01-01", time := "09:00", available := true, office := "A" }

/-- One office whose check finds an appointment on every attempt. -/
def behsPause : List (String × (ℕ → Except String ScrapingResult)) :=
  [("A", fun _ => Except.ok (okResult "A" [testAppointment]))]

/-- Controller state after `initialize` for the single office "A". -/
def csPause : CtrlState := { city_stats := [("A", {})], is_running := true }

/-- Three offices: A and C succeed, B raises an unexpected fault. -/
def behsFault : List (String × (ℕ → Except String ScrapingResult)) :=
  [("A", fun _ => Except.ok (okResult "A" [])),
   ("B", fun _ => Except.error "boom"),
   ("C", fun _ => Except.ok (okResult "C" []))]

/-- Controller state after `initialize` for offices A, B, C. -/
def csThree : CtrlState :=
  { city_stats := [("A", {}), ("B", {}), ("C", {})], is_running := true }

/-- Once paused, sending further alerts never resumes the system. -/
theorem sendAlerts_pause_absorb (sendOk : Bool) :
    ∀ (l : List AppointmentSlot) (st : RunState) (cs : CtrlState),
      cs.is_running = false → (sendAlerts sendOk l st cs).2.is_running = false := by
  intro l
  induction l with
  | nil => intro st cs h; exact h
  | cons a rest ih =>
      intro st cs h
      unfold sendAlerts
      apply ih
      by_cases hs : sendOk <;> simp [hs, h]

/-- A delivered alert for a nonempty appointment list pauses the system. -/
theorem sendAlerts_sets_pause :
    ∀ (l : List AppointmentSlot) (st : RunState) (cs : CtrlState), l ≠ [] →
      (sendAlerts true l st cs).2.is_running = false := by
  intro l st cs h
  cases l with
  | nil => exact absurd rfl h
  | cons a rest =>
      unfold sendAlerts
      apply sendAlerts_pause_absorb
      rfl

/-- Result processing never resumes a paused system. -/
theorem processResult1_pause_absorb (sendOk : Bool)
    (r : Except String (Option ScrapingResult)) (st : RunState) (cs : CtrlState)
    (h : cs.is_running = false) : (processResult1 sendOk r st cs).2.is_running = false := by
  cases r with
  | error e => exact h
  | ok o =>
      cases o with
      | none => exact h
      | some res =>
          simp only [processResult1]
          by_cases hq : (res.success && !res.appointments_found.isEmpty) = true
          · rw [if_pos hq]
            exact sendAlerts_pause_absorb sendOk _ st cs h
          · rw [if_neg hq]
            exact h

/-- Processing a whole results list never resumes a paused system. -/
theorem process_results_pause_absorb (sendOk : Bool) :
    ∀ (results : List (Except String (Option ScrapingResult))) (st : RunState)
      (cs : CtrlState), cs.is_running = false →
      (_process_check_results sendOk results st cs).2.is_running = false := by
  intro results
  induction results with
  | nil => intro st cs h; exact h
  | cons r rest ih =>
      intro st cs h
      unfold _process_check_results
      exact ih _ _ (processResult1_pause_absorb sendOk r st cs h)

/-- Processing one qualifying result with a delivered alert pauses the
system. -/
theorem processResult1_qualifying_pause (r : Except String (Option ScrapingResult))
    (st : RunState) (cs : CtrlState) (res : ScrapingResult)
    (hq : r = Except.ok (some res)) (hs : res.success = true)
    (ha : res.appointments_found ≠ []) :
    (processResult1 true r st cs).2.is_running = false := by
  subst hq
  simp only [processResult1]
  have hne : res.appointments_found.isEmpty = false := by
    cases hfound : res.appointments_found with
    | nil => exact absurd hfound ha
    | cons a rest => rfl
  rw [if_pos (by simp [hs, hne])]
  exact sendAlerts_sets_pause res.appointments_found _ _ ha

/-- Component-level property of the result-processing step: when a results
list contains a qualifying outcome (a successful check with a nonempty
appointment list) and the Notifier delivery reports success, processing
pauses the orchestrator (`is_running = false`), and the guarded loop starts
no further cycle while paused, until an external resume.  In the program
this code is unreachable — the monitoring pipeline only ever produces the
wrapper TypeError entries — so the property can be exercised only by
feeding a results list directly. -/
theorem pause_requires_delivered_alert :
    (∀ (results : List (Except String (Option ScrapingResult))) (st : RunState)
      (cs : CtrlState) (r : Except String (Option ScrapingResult)) (res : ScrapingResult),
      r ∈ results → r = Except.ok (some res) → res.success = true →
      res.appointments_found ≠ [] →
      (_process_check_results true results st cs).2.is_running = false)
    ∧ (∀ (behs : List (String × (ℕ → Except String ScrapingResult))) (jitter : ℕ → ℚ)
      (sendOk : Bool) (u : ℚ) (n : ℕ) (st : RunState) (cs : CtrlState),
      cs.is_running = false →
      runLoop behs jitter sendOk u n st cs = (st, cs, 0))
    ∧ (∀ cs : CtrlState, (resume_monitoring cs).is_running = true) := by
  refine ⟨?_, ?_, fun cs => rfl⟩
  · intro results
    induction results with
    | nil =>
        intro st cs r res hmem
        simp at hmem
    | cons x rest ih =>
        intro st cs r res hmem hq hs ha
        unfold _process_check_results
        rcases List.mem_cons.mp hmem with h1 | h1
        · subst h1
          exact process_results_pause_absorb true rest _ _
            (processResult1_qualifying_pause r st cs res hq hs ha)
        · exact ih _ _ r res h1 hq hs ha
  · intro behs jitter sendOk u n st cs h
    cases n with
    | zero => rfl
    | succ k =>
        unfold runLoop
        rw [h]
        simp

/-- Concrete instance of the component-level pause property. -/
theorem pause_requires_delivered_alert_witness :
    (_process_check_results true [Except.ok (some (okResult "A" [testAppointment]))]
      {} csPause).2.is_running = false :=
  pause_requires_delivered_alert.1 [Except.ok (some (okResult "A" [testAppointment]))]
    {} csPause (Except.ok (some (okResult "A" [testAppointment])))
    (okResult "A" [testAppointment]) (List.mem_singleton_self _) rfl rfl
    (by simp [okResult])

/-- C4: evaluation of the code at the failing input.  Office A's scraper
behaviour finds an appointment on every attempt and the Notifier delivery
would succeed (`sendOk = true`), yet the cycle's only gathered entry is the
wrapper TypeError — the scraper never runs, no qualifying outcome can reach
the processing step that would pause the system — so `is_running` stays true
and a second polling cycle starts with no external resume. -/
theorem pause_never_reached :
    (runChecks behsPause (fun _ => 1 / 5) {} csPause).1 = [Except.error typeErrorMsg]
    ∧ (runLoop behsPause (fun _ => 1 / 5) true 60 2 {} csPause).2.1.is_running = true
    ∧ (runLoop behsPause (fun _ => 1 / 5) true 60 2 {} csPause).2.2 = 2 := by
  refine ⟨rfl, ?_, ?_⟩ <;>
    norm_num [runLoop, monitoringCycle, runChecks, check_office_typeerror, behsPause,
      csPause, _process_check_results, processResult1, _calculate_next_delay,
      _calculate_overall_success_rate, RunState.sleep]

/-- C3 counterexample: in the 3-target cycle whose scraper behaviours would
make A and C succeed while B raises "boom", NO target produces an outcome:
all three gathered entries are the wrapper TypeError, raised before any
scraper call; the controller state is unchanged, the city-stats total-checks
sum is 0 (the denominator counts neither B's faulting check nor anything
else), and the combined success rate is the zero-run default 1 — not
strictly lower than the rate over the successful targets alone. -/
theorem cycle_fault_rate_counterexample :
    (runChecks behsFault (fun _ => 1 / 5) {} csThree).1
      = [Except.error typeErrorMsg, Except.error typeErrorMsg, Except.error typeErrorMsg]
    ∧ (runChecks behsFault (fun _ => 1 / 5) {} csThree).2.2 = csThree
    ∧ ((runChecks behsFault (fun _ => 1 / 5) {} csThree).2.2.city_stats.map
        (fun p => p.2.total_checks)).sum = 0
    ∧ _calculate_overall_success_rate
        (runChecks behsFault (fun _ => 1 / 5) {} csThree).2.2.city_stats = 1
    ∧ ¬(_calculate_overall_success_rate
        (runChecks behsFault (fun _ => 1 / 5) {} csThree).2.2.city_stats < 1) := by
  refine ⟨rfl, rfl, rfl, rfl, ?_⟩
  norm_num [runChecks, check_office_typeerror, behsFault, csThree,
    _calculate_overall_success_rate]

/-- C3 (amended): no per-target decorated check ever reaches the engine or
the scraper — each raises the wrapper TypeError — so a cycle over any target
list returns exactly one exception per target and leaves the engine state
and the controller statistics unchanged; in particular, in the 3-target
scenario where B would raise an unexpected fault while A and C would
succeed, A and C produce no outcomes either, nothing is recorded for any
target, the combined success rate is the zero-run default 1 and the next
inter-cycle delay takes the high-success branch `u * 0.8`.  (One target
never blocks the others and the cycle still completes — but only because
every target fails identically before its check starts.) -/
theorem cycle_fault_isolation :
    (∀ (behs : List (String × (ℕ → Except String ScrapingResult))) (jitter : ℕ → ℚ)
      (st : RunState) (cs : CtrlState),
      runChecks behs jitter st cs
        = (behs.map (fun _ => Except.error typeErrorMsg), st, cs))
    ∧ (∀ u : ℚ,
      _calculate_overall_success_rate
        (runChecks behsFault (fun _ => 1 / 5) {} csThree).2.2.city_stats = 1
      ∧ _calculate_next_delay u
          (runChecks behsFault (fun _ => 1 / 5) {} csThree).2.2.city_stats
        = u * (4 / 5)) := by
  have hgen : ∀ (behs : List (String × (ℕ → Except String ScrapingResult))) (jitter : ℕ → ℚ)
      (st : RunState) (cs : CtrlState),
      runChecks behs jitter st cs
        = (behs.map (fun _ => Except.error typeErrorMsg), st, cs) := by
    intro behs
    induction behs with
    | nil => intro jitter st cs; rfl
    | cons b rest ih =>
        intro jitter st cs
        rcases b with ⟨office, beh⟩
        simp only [runChecks, check_office_typeerror, ih, List.map_cons]
  refine ⟨hgen, ?_⟩
  intro u
  rw [hgen behsFault (fun _ => 1 / 5) {} csThree]
  constructor
  · norm_num [csThree, _calculate_overall_success_rate]
  · norm_num [csThree, _calculate_overall_success_rate, _calculate_next_delay]
